import Mathlib

/-!
Shallow embedding of the `ws` package of twinone/iot
(source file `src/unnamed/part_000`): the per-connection handshake state
machine (`Conn.processMessage`), the single-flight close coordination
(`Conn.Close`), the read-loop frame handling (`Conn.readFrame`) and the
keepalive/deadline constants.

Side effects on the outside world (closing the Send/Recv channels, closing
the websocket, the hub register/unregister hand-offs, enqueuing onto Recv)
are made explicit as a trace of `Effect` values emitted by each operation.
Go `string` values are analysed through their character lists; the helpers
`goSplit`, `goTrim` and `afterFirst` mirror `strings.Split(s, " ")`,
`strings.Trim` and `strings.SplitN(s, " ", 2)[1]` for the single-character
separator used by the source.
-/

namespace ws

/-- Go `time.Duration` counts nanoseconds; `time.Second` is `1e9`. -/
def second : Int := 1000000000

/-- Source line 27: `writeWait = 30 * time.Second`. -/
def writeWait : Int := 30 * second

/-- Source line 30: `pongWait = 60 * time.Second` (read-deadline window). -/
def pongWait : Int := 60 * second

/-- Source line 33: `pingPeriod = (pongWait * 7) / 10`. -/
def pingPeriod : Int := (pongWait * 7) / 10

/-- Source line 24: `queueSize = 16`. -/
def queueSize : Nat := 16

/-- Source line 36: `maxMessageSize = 512`. -/
def maxMessageSize : Nat := 512

/-- Handshake state enum, source lines 14-20 (`State int`, iota 0,1,2).
The `model` package (not under src/) mirrors these constants
(`model.StatePendingHello` etc., spec section 3). -/
inductive State
  | StatePendingHello
  | StatePendingOwner
  | StateConnected
deriving DecidableEq

/-- The underlying Go integer value of a state (iota order); used to state
forward-only monotonicity of the handshake. -/
def stateRank : State → Nat
  | .StatePendingHello => 0
  | .StatePendingOwner => 1
  | .StateConnected => 2

/-- Modelled from the spec: `model.Device` (its definition is not under
src/). Spec section 3 gives the identity record fields `state`, `id`,
`owner`, `name`, `lastSeen`; the field names `Id`, `Owner`, `Name`,
`State`, `LastSeen` are those the source file accesses. -/
structure Device where
  Id : String
  Owner : String
  Name : String
  State : State
  LastSeen : Int
deriving DecidableEq

/-- Modelled from the spec: wire command `HELLO` (`model.RespHello`,
constant not under src/; spec section 6 wire protocol). -/
def RespHello : String := "HELLO"

/-- Modelled from the spec: wire command `OWNER` (`model.RespOwner`). -/
def RespOwner : String := "OWNER"

/-- Modelled from the spec: wire command `NAME` (`model.RespName`). -/
def RespName : String := "NAME"

/-- Modelled from the spec: wire command `BYE` (`model.RespBye`). -/
def RespBye : String := "BYE"

/-- Observable side effects of the connection code, recorded as a trace:
closing the Send channel, closing the Recv channel, closing the websocket,
the `hub.register <- c` and `hub.unregister <- c` hand-offs, and enqueuing
a frame onto the Recv channel. -/
inductive Effect
  | closeSend
  | closeRecv
  | closeSocket
  | register
  | unregister
  | enqueueRecv (msg : String)
deriving DecidableEq

/-- Occurrences of an effect in a trace. -/
def countEff (e : Effect) : List Effect → Nat
  | [] => 0
  | x :: xs => (if x = e then 1 else 0) + countEff e xs

/-- Connection state, source lines 48-58. The websocket and hub are
external collaborators reachable only through effects; the Send channel's
contents never matter to these claims, so only the Recv queue contents are
carried. `closed` is the mutex-guarded flag; the mutex serialises `Close`
and the guarded enqueue, so operations are modelled as atomic steps. -/
structure Conn where
  Device : Device
  closed : Bool
  Recv : List String
deriving DecidableEq

/-- Go `strings.Split(s, sep)` for a one-character separator, on the
character list of `s`: Split of the empty string is `[""]`, adjacent
separators yield empty fields. -/
def goSplit (sep : Char) : List Char → List (List Char)
  | [] => [[]]
  | c :: rest =>
    if c = sep then [] :: goSplit sep rest
    else
      match goSplit sep rest with
      | [] => [[c]]
      | t :: ts => (c :: t) :: ts

/-- Go `strings.Trim(s, cutset)`: remove leading and trailing characters
belonging to the cutset. -/
def goTrim (cut : List Char) (l : List Char) : List Char :=
  ((l.dropWhile (fun c => cut.contains c)).reverse.dropWhile
    (fun c => cut.contains c)).reverse

/-- Characters after the first occurrence of `sep`; for a string containing
`sep` this is Go `strings.SplitN(s, sep, 2)[1]`. -/
def afterFirst (sep : Char) : List Char → List Char
  | [] => []
  | c :: rest => if c = sep then rest else afterFirst sep rest

/-- `Conn.Close`, source lines 149-162: under the mutex, if not yet closed,
set `closed`, close the Send channel, close the Recv channel, close the
websocket, and hand the connection to `hub.unregister` exactly when the
device state is `StateConnected`; otherwise do nothing. -/
def Conn.Close (c : Conn) : Conn × List Effect :=
  if c.closed then (c, [])
  else
    ({ c with closed := true },
      [Effect.closeSend, Effect.closeRecv, Effect.closeSocket] ++
        (if c.Device.State = State.StateConnected then [Effect.unregister] else []))

/-- Iterated `Close`: `N` sequential invocations (the mutex serialises
concurrent callers, so any interleaving is one of these sequential
orders). -/
def closeN : Nat → Conn → Conn × List Effect
  | 0, c => (c, [])
  | n + 1, c =>
    let p := c.Close
    let r := closeN n p.1
    (r.1, p.2 ++ r.2)

/-- The command token the decoder dispatches on, source lines 115-116:
`ss := strings.Split(msg, " ")` and `cmd := strings.Trim(ss[0], " \t\r\n")`. -/
def cmdOf (message : String) : String :=
  String.mk (goTrim [' ', '\t', '\r', '\n'] ((goSplit ' ' message.toList).headD []))

/-- `Conn.processMessage`, source lines 113-147: split the message on the
space character, trim the command token (`cmdOf`), and dispatch on it.
`HELLO <id>` in `StatePendingHello` sets `Id` and advances to
`StatePendingOwner`; `OWNER <owner>` in `StatePendingOwner` sets `Owner`,
advances to `StateConnected` and hands the connection to `hub.register`;
`NAME <rest>` sets `Name` to the trimmed remainder after the first space;
`BYE` and anything unexpected close the connection, as does any
precondition failure of `HELLO`/`OWNER`. -/
def Conn.processMessage (c : Conn) (message : String) : Conn × List Effect :=
  let msg := message.toList
  let ss := goSplit ' ' msg
  let cmd := cmdOf message
  if cmd = RespHello then
    if ss.length < 2 ∨ c.Device.State ≠ State.StatePendingHello then c.Close
    else
      ({ c with Device := { c.Device with
          Id := String.mk (ss.getD 1 []),
          State := State.StatePendingOwner } }, [])
  else if cmd = RespOwner then
    if ss.length < 2 ∨ c.Device.State ≠ State.StatePendingOwner then c.Close
    else
      ({ c with Device := { c.Device with
          Owner := String.mk (ss.getD 1 []),
          State := State.StateConnected } }, [Effect.register])
  else if cmd = RespName then
    if 2 ≤ ss.length then
      ({ c with Device := { c.Device with
          Name := String.mk (goTrim [' ', '\t', '\n'] (afterFirst ' ' msg)) } }, [])
    else (c, [])
  else if cmd = RespBye then
    c.Close
  else
    c.Close

/-- One iteration of the `readPump` loop body for a successfully read frame
(source lines 100-108): update `LastSeen`, process the message, then under
the mutex enqueue the raw frame onto Recv only when the connection is not
closed. -/
def Conn.readFrame (c : Conn) (now : Int) (message : String) : Conn × List Effect :=
  let c0 : Conn := { c with Device := { c.Device with LastSeen := now } }
  let pm := c0.processMessage message
  if pm.1.closed then pm
  else ({ pm.1 with Recv := pm.1.Recv ++ [message] },
    pm.2 ++ [Effect.enqueueRecv message])

/-- The inbound loop over a list of frames, through the decoder (source
lines 92-109): frames are processed serially; once `Close` has run, the
websocket is closed, so the next `ReadMessage` fails and the loop exits —
no further frame is processed. -/
def Conn.runFrames (c : Conn) : List String → Conn × List Effect
  | [] => (c, [])
  | m :: rest =>
    if c.closed then (c, [])
    else
      let pm := c.processMessage m
      let r := pm.1.runFrames rest
      (r.1, pm.2 ++ r.2)

/-- A freshly upgraded connection, `GenWSHandler` source lines 172-180:
zero-valued Device except `State: model.StatePendingHello`, open, empty
queues. -/
def freshConn : Conn :=
  { Device :=
      { Id := "", Owner := "", Name := "",
        State := State.StatePendingHello,
        LastSeen := 0 },
    closed := false,
    Recv := [] }

/-- Read-deadline bookkeeping of `readPump`. `deadline` is the websocket
read deadline; `LastSeen` is `Device.LastSeen`. -/
structure ReadDeadlineState where
  LastSeen : Int
  deadline : Int
deriving DecidableEq

/-- The pong handler, source lines 87-91: set `LastSeen` and reset the read
deadline to `now + pongWait`. -/
def pongHandler (now : Int) (_s : ReadDeadlineState) : ReadDeadlineState :=
  { LastSeen := now, deadline := now + pongWait }

/-- Receipt of an ordinary inbound frame, source line 100: only
`Device.LastSeen` is assigned; `SetReadDeadline` is not called in the loop
body. -/
def frameLiveness (now : Int) (s : ReadDeadlineState) : ReadDeadlineState :=
  { s with LastSeen := now }

/-- The deadline installed when the read loop starts, source line 86. -/
def initialReadState (now : Int) : ReadDeadlineState :=
  { LastSeen := 0, deadline := now + pongWait }

/-! ### Basic facts about `Close` -/

theorem Close_closed (c : Conn) : (c.Close).1.closed = true := by
  unfold Conn.Close
  split_ifs with h <;> simp_all

theorem Close_of_closed (c : Conn) (h : c.closed = true) : c.Close = (c, []) := by
  unfold Conn.Close
  simp [h]

theorem Close_of_open (c : Conn) (h : c.closed = false) :
    c.Close = ({ c with closed := true },
      [Effect.closeSend, Effect.closeRecv, Effect.closeSocket] ++
        (if c.Device.State = State.StateConnected then [Effect.unregister] else [])) := by
  unfold Conn.Close
  simp [h]

theorem Close_Device (c : Conn) : (c.Close).1.Device = c.Device := by
  unfold Conn.Close
  split_ifs <;> rfl

theorem Close_Recv (c : Conn) : (c.Close).1.Recv = c.Recv := by
  unfold Conn.Close
  split_ifs <;> rfl

theorem Close_no_register (c : Conn) : Effect.register ∉ (c.Close).2 := by
  unfold Conn.Close
  split_ifs <;> simp_all

theorem Close_no_enqueue (c : Conn) (s : String) :
    Effect.enqueueRecv s ∉ (c.Close).2 := by
  unfold Conn.Close
  split_ifs <;> simp_all

theorem Close_no_unregister (c : Conn) (h : c.Device.State ≠ State.StateConnected) :
    Effect.unregister ∉ (c.Close).2 := by
  unfold Conn.Close
  split_ifs <;> simp_all

/-! ### Counting effects in a trace -/

theorem countEff_append (e : Effect) (l₁ l₂ : List Effect) :
    countEff e (l₁ ++ l₂) = countEff e l₁ + countEff e l₂ := by
  induction l₁ with
  | nil => simp [countEff]
  | cons x xs ih => simp [countEff, ih, Nat.add_assoc]

theorem countEff_eq_zero (e : Effect) (l : List Effect) :
    countEff e l = 0 ↔ e ∉ l := by
  induction l with
  | nil => simp [countEff]
  | cons x xs ih =>
    by_cases hx : x = e
    · subst hx
      simp [countEff]
    · have hx2 : e ≠ x := fun h => hx h.symm
      simp [countEff, hx, hx2, ih]

/-! ### Case analysis of the decoder

`pm_cases` lists the five possible outcomes of one `processMessage` call:
a close (precondition failure, `BYE`, or unexpected command), a no-op
(`NAME` without argument), a successful `HELLO`, a successful `OWNER`
(the only outcome that emits `register`), and a `NAME` update. -/

theorem pm_cases (c : Conn) (m : String) :
    c.processMessage m = c.Close
  ∨ c.processMessage m = (c, [])
  ∨ (c.Device.State = State.StatePendingHello ∧ cmdOf m = RespHello ∧
      2 ≤ (goSplit ' ' m.toList).length ∧
      c.processMessage m =
        ({ c with Device := { c.Device with
            Id := String.mk ((goSplit ' ' m.toList).getD 1 []),
            State := State.StatePendingOwner } }, []))
  ∨ (c.Device.State = State.StatePendingOwner ∧ cmdOf m = RespOwner ∧
      2 ≤ (goSplit ' ' m.toList).length ∧
      c.processMessage m =
        ({ c with Device := { c.Device with
            Owner := String.mk ((goSplit ' ' m.toList).getD 1 []),
            State := State.StateConnected } }, [Effect.register]))
  ∨ c.processMessage m =
      ({ c with Device := { c.Device with
          Name := String.mk (goTrim [' ', '\t', '\n'] (afterFirst ' ' m.toList)) } }, []) := by
  by_cases h1 : cmdOf m = RespHello
  · by_cases h2 : (goSplit ' ' m.toList).length < 2 ∨ c.Device.State ≠ State.StatePendingHello
    · refine Or.inl ?_
      unfold Conn.processMessage
      rw [if_pos h1, if_pos h2]
    · push_neg at h2
      refine Or.inr (Or.inr (Or.inl ⟨h2.2, h1, by omega, ?_⟩))
      unfold Conn.processMessage
      rw [if_pos h1, if_neg (by push_neg; exact h2)]
  · by_cases h3 : cmdOf m = RespOwner
    · by_cases h4 : (goSplit ' ' m.toList).length < 2 ∨ c.Device.State ≠ State.StatePendingOwner
      · refine Or.inl ?_
        unfold Conn.processMessage
        rw [if_neg h1, if_pos h3, if_pos h4]
      · push_neg at h4
        refine Or.inr (Or.inr (Or.inr (Or.inl ⟨h4.2, h3, by omega, ?_⟩)))
        unfold Conn.processMessage
        rw [if_neg h1, if_pos h3, if_neg (by push_neg; exact h4)]
    · by_cases h5 : cmdOf m = RespName
      · by_cases h6 : 2 ≤ (goSplit ' ' m.toList).length
        · refine Or.inr (Or.inr (Or.inr (Or.inr ?_)))
          unfold Conn.processMessage
          rw [if_neg h1, if_neg h3, if_pos h5, if_pos h6]
        · refine Or.inr (Or.inl ?_)
          unfold Conn.processMessage
          rw [if_neg h1, if_neg h3, if_pos h5, if_neg h6]
      · by_cases h7 : cmdOf m = RespBye
        · refine Or.inl ?_
          unfold Conn.processMessage
          rw [if_neg h1, if_neg h3, if_neg h5, if_pos h7]
        · refine Or.inl ?_
          unfold Conn.processMessage
          rw [if_neg h1, if_neg h3, if_neg h5, if_neg h7]

/-- A successful `OWNER` command: the exact result of the
`StatePendingOwner` to `StateConnected` transition (source lines 126-134). -/
theorem pm_owner_success (c : Conn) (m : String)
    (hst : c.Device.State = State.StatePendingOwner)
    (hcmd : cmdOf m = RespOwner)
    (hlen : 2 ≤ (goSplit ' ' m.toList).length) :
    c.processMessage m =
      ({ c with Device := { c.Device with
          Owner := String.mk ((goSplit ' ' m.toList).getD 1 []),
          State := State.StateConnected } }, [Effect.register]) := by
  unfold Conn.processMessage
  rw [if_neg (by rw [hcmd]; decide), if_pos hcmd,
    if_neg (by push_neg; exact ⟨by omega, hst⟩)]

/-- A successful `HELLO` command: the exact result of the
`StatePendingHello` to `StatePendingOwner` transition (source lines
118-125). -/
theorem pm_hello_success (c : Conn) (m : String)
    (hst : c.Device.State = State.StatePendingHello)
    (hcmd : cmdOf m = RespHello)
    (hlen : 2 ≤ (goSplit ' ' m.toList).length) :
    c.processMessage m =
      ({ c with Device := { c.Device with
          Id := String.mk ((goSplit ' ' m.toList).getD 1 []),
          State := State.StatePendingOwner } }, []) := by
  unfold Conn.processMessage
  rw [if_pos hcmd, if_neg (by push_neg; exact ⟨by omega, hst⟩)]

theorem pm_Recv (c : Conn) (m : String) :
    (c.processMessage m).1.Recv = c.Recv := by
  rcases pm_cases c m with h | h | ⟨_, _, _, h⟩ | ⟨_, _, _, h⟩ | h <;> rw [h]
  exact Close_Recv c

theorem pm_closed_mono (c : Conn) (m : String) (h : c.closed = true) :
    (c.processMessage m).1.closed = true := by
  rcases pm_cases c m with hh | hh | ⟨_, _, _, hh⟩ | ⟨_, _, _, hh⟩ | hh <;>
    rw [hh] <;> first | exact Close_closed c | exact h

theorem pm_state_mono (c : Conn) (m : String) :
    stateRank c.Device.State ≤ stateRank ((c.processMessage m).1.Device.State) := by
  rcases pm_cases c m with hh | hh | ⟨hs, _, _, hh⟩ | ⟨hs, _, _, hh⟩ | hh
  · rw [hh, Close_Device]
  · rw [hh]
  · rw [hh, hs]; simp [stateRank]
  · rw [hh, hs]; simp [stateRank]
  · rw [hh]

theorem pm_connected_absorbing (c : Conn) (m : String)
    (h : c.Device.State = State.StateConnected) :
    (c.processMessage m).1.Device.State = State.StateConnected := by
  rcases pm_cases c m with hh | hh | ⟨hs, _, _, hh⟩ | ⟨hs, _, _, hh⟩ | hh
  · rw [hh, Close_Device]; exact h
  · rw [hh]; exact h
  · rw [h] at hs; exact absurd hs (by decide)
  · rw [h] at hs; exact absurd hs (by decide)
  · rw [hh]; exact h

/-- `register` is emitted only by a successful `OWNER` in
`StatePendingOwner`, and then the whole step trace is `[register]` and the
state moves to `StateConnected`. -/
theorem pm_register_mem (c : Conn) (m : String)
    (hm : Effect.register ∈ (c.processMessage m).2) :
    c.Device.State = State.StatePendingOwner ∧ cmdOf m = RespOwner ∧
      2 ≤ (goSplit ' ' m.toList).length ∧
      (c.processMessage m).2 = [Effect.register] ∧
      (c.processMessage m).1.Device.State = State.StateConnected := by
  rcases pm_cases c m with hh | hh | ⟨hs, _, _, hh⟩ | ⟨hs, hc, hl, hh⟩ | hh
  · rw [hh] at hm; exact absurd hm (Close_no_register c)
  · rw [hh] at hm; simp at hm
  · rw [hh] at hm; simp at hm
  · exact ⟨hs, hc, hl, by rw [hh], by rw [hh]⟩
  · rw [hh] at hm; simp at hm

theorem pm_not_connected_preserved (c : Conn) (m : String)
    (h : c.Device.State ≠ State.StateConnected)
    (hm : Effect.register ∉ (c.processMessage m).2) :
    (c.processMessage m).1.Device.State ≠ State.StateConnected := by
  rcases pm_cases c m with hh | hh | ⟨hs, _, _, hh⟩ | ⟨hs, _, _, hh⟩ | hh <;> rw [hh]
  · rw [Close_Device]; exact h
  · exact h
  · simp
  · rw [hh] at hm; simp at hm
  · exact h

theorem pm_no_unregister (c : Conn) (m : String)
    (h : c.Device.State ≠ State.StateConnected) :
    Effect.unregister ∉ (c.processMessage m).2 := by
  rcases pm_cases c m with hh | hh | ⟨_, _, _, hh⟩ | ⟨_, _, _, hh⟩ | hh <;> rw [hh]
  · exact Close_no_unregister c h
  · simp
  · simp
  · simp
  · simp

theorem pm_no_enqueue (c : Conn) (m s : String) :
    Effect.enqueueRecv s ∉ (c.processMessage m).2 := by
  rcases pm_cases c m with hh | hh | ⟨_, _, _, hh⟩ | ⟨_, _, _, hh⟩ | hh <;> rw [hh]
  · exact Close_no_enqueue c s
  · simp
  · simp
  · simp
  · simp

/-! ### Facts about iterated `Close` and the inbound loop -/

theorem closeN_of_closed (n : Nat) (c : Conn) (h : c.closed = true) :
    closeN n c = (c, []) := by
  induction n with
  | zero => rfl
  | succ k ih => simp [closeN, Close_of_closed c h, ih]

theorem runFrames_state_mono (msgs : List String) (c : Conn) :
    stateRank c.Device.State ≤ stateRank ((c.runFrames msgs).1.Device.State) := by
  induction msgs generalizing c with
  | nil => simp [Conn.runFrames]
  | cons m rest ih =>
    by_cases hc : c.closed
    · simp [Conn.runFrames, hc]
    · simp only [Conn.runFrames, hc, if_false, Bool.false_eq_true]
      exact Nat.le_trans (pm_state_mono c m) (ih (c.processMessage m).1)

theorem runFrames_connected_register_zero (msgs : List String) (c : Conn)
    (h : c.Device.State = State.StateConnected) :
    countEff Effect.register (c.runFrames msgs).2 = 0 := by
  induction msgs generalizing c with
  | nil => simp [Conn.runFrames, countEff]
  | cons m rest ih =>
    by_cases hc : c.closed
    · simp [Conn.runFrames, hc, countEff]
    · simp only [Conn.runFrames, hc, if_false, Bool.false_eq_true]
      rw [countEff_append]
      have h1 : countEff Effect.register (c.processMessage m).2 = 0 := by
        rw [countEff_eq_zero]
        intro hm
        have := (pm_register_mem c m hm).1
        rw [h] at this
        exact absurd this (by decide)
      rw [h1, ih (c.processMessage m).1 (pm_connected_absorbing c m h)]

theorem runFrames_register_le_one (msgs : List String) (c : Conn) :
    countEff Effect.register (c.runFrames msgs).2 ≤ 1 := by
  induction msgs generalizing c with
  | nil => simp [Conn.runFrames, countEff]
  | cons m rest ih =>
    by_cases hc : c.closed
    · simp [Conn.runFrames, hc, countEff]
    · simp only [Conn.runFrames, hc, if_false, Bool.false_eq_true]
      rw [countEff_append]
      by_cases hm : Effect.register ∈ (c.processMessage m).2
      · obtain ⟨_, _, _, htr, hcn⟩ := pm_register_mem c m hm
        rw [htr, runFrames_connected_register_zero rest _ hcn]
        simp [countEff]
      · rw [(countEff_eq_zero _ _).mpr hm]
        simpa using ih (c.processMessage m).1

theorem runFrames_no_register_no_unregister (msgs : List String) (c : Conn)
    (h : c.Device.State ≠ State.StateConnected)
    (hr : countEff Effect.register (c.runFrames msgs).2 = 0) :
    countEff Effect.unregister (c.runFrames msgs).2 = 0 := by
  induction msgs generalizing c with
  | nil => simp [Conn.runFrames, countEff]
  | cons m rest ih =>
    by_cases hc : c.closed
    · simp [Conn.runFrames, hc, countEff]
    · simp only [Conn.runFrames, hc, if_false, Bool.false_eq_true] at hr ⊢
      rw [countEff_append] at hr ⊢
      have hr1 : countEff Effect.register (c.processMessage m).2 = 0 := by omega
      have hr2 : countEff Effect.register ((c.processMessage m).1.runFrames rest).2 = 0 := by
        omega
      have hm : Effect.register ∉ (c.processMessage m).2 := (countEff_eq_zero _ _).mp hr1
      rw [(countEff_eq_zero _ _).mpr (pm_no_unregister c m h),
        ih (c.processMessage m).1 (pm_not_connected_preserved c m h hm) hr2]

/-! ### Claims -/

/-- C1: `Close` is idempotent and single-flight. For a connection whose
`closed` flag is false, any number `n ≥ 1` of invocations (the mutex
serialises concurrent callers) yields exactly the teardown trace of the
first call — the Send queue, Recv queue and socket are each closed exactly
once — the `closed` flag ends true and stays true under any further
invocations, and exactly one `unregister` hand-off occurs if and only if
the device state was `StateConnected` at the first `Close`. -/
theorem C1_close_single_flight (c : Conn) (n : Nat) (hn : 1 ≤ n)
    (hc : c.closed = false) :
    closeN n c = ({ c with closed := true },
      [Effect.closeSend, Effect.closeRecv, Effect.closeSocket] ++
        (if c.Device.State = State.StateConnected then [Effect.unregister] else []))
  ∧ countEff Effect.closeSend (closeN n c).2 = 1
  ∧ countEff Effect.closeRecv (closeN n c).2 = 1
  ∧ countEff Effect.closeSocket (closeN n c).2 = 1
  ∧ (countEff Effect.unregister (closeN n c).2 =
      if c.Device.State = State.StateConnected then 1 else 0)
  ∧ (∀ k, (closeN k (closeN n c).1).1.closed = true) := by
  obtain ⟨k, rfl⟩ : ∃ k, n = k + 1 := ⟨n - 1, by omega⟩
  have heq : closeN (k + 1) c = ({ c with closed := true },
      [Effect.closeSend, Effect.closeRecv, Effect.closeSocket] ++
        (if c.Device.State = State.StateConnected then [Effect.unregister]
          else [])) := by
    simp only [closeN, Close_of_open c hc]
    rw [closeN_of_closed k _ rfl]
    simp
  refine ⟨heq, ?_, ?_, ?_, ?_, ?_⟩ <;> rw [heq]
  · by_cases hst : c.Device.State = State.StateConnected <;> simp [hst, countEff]
  · by_cases hst : c.Device.State = State.StateConnected <;> simp [hst, countEff]
  · by_cases hst : c.Device.State = State.StateConnected <;> simp [hst, countEff]
  · by_cases hst : c.Device.State = State.StateConnected <;> simp [hst, countEff]
  · intro k2
    rw [closeN_of_closed k2 _ rfl]

theorem C1_close_single_flight_witness :
    (1 ≤ 2) ∧ freshConn.closed = false ∧
    (closeN 2 freshConn = ({ freshConn with closed := true },
      [Effect.closeSend, Effect.closeRecv, Effect.closeSocket] ++
        (if freshConn.Device.State = State.StateConnected then [Effect.unregister]
          else []))
  ∧ countEff Effect.closeSend (closeN 2 freshConn).2 = 1
  ∧ countEff Effect.closeRecv (closeN 2 freshConn).2 = 1
  ∧ countEff Effect.closeSocket (closeN 2 freshConn).2 = 1
  ∧ (countEff Effect.unregister (closeN 2 freshConn).2 =
      if freshConn.Device.State = State.StateConnected then 1 else 0)
  ∧ (∀ k, (closeN k (closeN 2 freshConn).1).1.closed = true)) :=
  ⟨by decide, rfl, C1_close_single_flight freshConn 2 (by decide) rfl⟩

/-- C2: over any inbound frame sequence from a fresh connection, the
`register` hand-off is emitted at most once; a single `processMessage` step
emits it exactly when it handles a valid `OWNER` command in
`StatePendingOwner` (never before that transition); and a run that never
emits `register` also never emits `unregister`. -/
theorem C2_register_exactly_on_owner :
    (∀ msgs : List String,
      countEff Effect.register (freshConn.runFrames msgs).2 ≤ 1)
  ∧ (∀ (c : Conn) (m : String),
      Effect.register ∈ (c.processMessage m).2 ↔
        (c.Device.State = State.StatePendingOwner ∧ cmdOf m = RespOwner ∧
          2 ≤ (goSplit ' ' m.toList).length))
  ∧ (∀ msgs : List String,
      countEff Effect.register (freshConn.runFrames msgs).2 = 0 →
        countEff Effect.unregister (freshConn.runFrames msgs).2 = 0) := by
  refine ⟨fun msgs => runFrames_register_le_one msgs freshConn,
    fun c m => ⟨?_, ?_⟩,
    fun msgs h =>
      runFrames_no_register_no_unregister msgs freshConn (by decide) h⟩
  · intro hm
    obtain ⟨a, b, d, _, _⟩ := pm_register_mem c m hm
    exact ⟨a, b, d⟩
  · rintro ⟨hst, hcmd, hlen⟩
    rw [pm_owner_success c m hst hcmd hlen]
    simp

theorem C2_register_exactly_on_owner_witness :
    countEff Effect.register (freshConn.runFrames ["BYE"]).2 = 0 ∧
    countEff Effect.unregister (freshConn.runFrames ["BYE"]).2 = 0 :=
  ⟨by decide, C2_register_exactly_on_owner.2.2 ["BYE"] (by decide)⟩

/-- C3: the handshake state only ever moves forward along
`StatePendingHello → StatePendingOwner → StateConnected`: a single decoder
step, and hence any sequence of steps of the inbound loop, never assigns a
state of lower rank than the current one. -/
theorem C3_state_monotone :
    (∀ (c : Conn) (m : String),
      stateRank c.Device.State ≤ stateRank ((c.processMessage m).1.Device.State))
  ∧ (∀ (c : Conn) (msgs : List String),
      stateRank c.Device.State ≤ stateRank ((c.runFrames msgs).1.Device.State)) :=
  ⟨pm_state_mono, fun c msgs => runFrames_state_mono msgs c⟩

/-- C4 counterexample: an ordinary inbound frame does not extend the read
deadline. Starting from the deadline installed at loop start (time 0), a
frame received at time 1 leaves the deadline at `pongWait` instead of
resetting it to `1 + pongWait`, contradicting the claim that every
ordinary inbound frame resets the deadline to now plus the window. -/
theorem C4_counterexample :
    (frameLiveness 1 (initialReadState 0)).deadline = pongWait ∧
    (frameLiveness 1 (initialReadState 0)).deadline ≠ 1 + pongWait :=
  ⟨rfl, by decide⟩

/-- C4 (amended): only a received pong resets the read deadline (to now
plus `pongWait`); an ordinary inbound frame updates `Device.LastSeen` but
leaves the read deadline unchanged, so only the initial deadline and pongs
bound when the inbound read fails for deadline expiry. -/
theorem C4_pong_only_extends_deadline :
    (∀ (now : Int) (s : ReadDeadlineState),
      (pongHandler now s).deadline = now + pongWait ∧
      (pongHandler now s).LastSeen = now)
  ∧ (∀ (now : Int) (s : ReadDeadlineState),
      (frameLiveness now s).deadline = s.deadline ∧
      (frameLiveness now s).LastSeen = now) :=
  ⟨fun _ _ => ⟨rfl, rfl⟩, fun _ _ => ⟨rfl, rfl⟩⟩

/-- C5: from a fresh connection, the frames `HELLO d1`, `OWNER o1`,
`NAME kitchen light` leave the device at `id = d1`, `owner = o1`,
`name = kitchen light`, state `StateConnected`, with the connection still
open; the whole trace of hub hand-offs is exactly one `register`, emitted
during the `OWNER` frame (the trace is empty after `HELLO` alone and
already contains the `register` right after `OWNER`). -/
theorem C5_happy_path :
    (freshConn.runFrames ["HELLO d1", "OWNER o1", "NAME kitchen light"]).1 =
      { Device :=
          { Id := "d1", Owner := "o1", Name := "kitchen light",
            State := State.StateConnected, LastSeen := 0 },
        closed := false, Recv := [] }
  ∧ (freshConn.runFrames ["HELLO d1", "OWNER o1", "NAME kitchen light"]).2 =
      [Effect.register]
  ∧ (freshConn.runFrames ["HELLO d1"]).2 = []
  ∧ (freshConn.runFrames ["HELLO d1", "OWNER o1"]).2 = [Effect.register] := by
  decide

/-- C6: a fresh connection whose first frame is `OWNER o1` closes
immediately: the teardown trace is emitted at once, `Id` and `Owner` stay
empty, and no `register` is emitted. -/
theorem C6_owner_without_hello :
    (freshConn.runFrames ["OWNER o1"]).1.closed = true
  ∧ (freshConn.runFrames ["OWNER o1"]).1.Device.Id = ""
  ∧ (freshConn.runFrames ["OWNER o1"]).1.Device.Owner = ""
  ∧ countEff Effect.register (freshConn.runFrames ["OWNER o1"]).2 = 0
  ∧ (freshConn.runFrames ["OWNER o1"]).2 =
      [Effect.closeSend, Effect.closeRecv, Effect.closeSocket] := by
  decide

/-- C7: once `closed` is true, a read-loop iteration never enqueues the
frame onto Recv: the guarded check (same mutex as `Close`) drops the frame
as a no-op, so the Recv queue is unchanged and no enqueue effect occurs. -/
theorem C7_closed_drops_enqueue (c : Conn) (now : Int) (m : String)
    (h : c.closed = true) :
    (c.readFrame now m).1.Recv = c.Recv
  ∧ (∀ s : String, Effect.enqueueRecv s ∉ (c.readFrame now m).2) := by
  have hc0 : ({ c with Device := { c.Device with LastSeen := now } } : Conn).closed
      = true := h
  unfold Conn.readFrame
  have hcl := pm_closed_mono { c with Device := { c.Device with LastSeen := now } } m hc0
  rw [if_pos hcl]
  exact ⟨pm_Recv _ m, fun s => pm_no_enqueue _ m s⟩

theorem C7_closed_drops_enqueue_witness :
    ({ freshConn with closed := true } : Conn).closed = true
  ∧ ((({ freshConn with closed := true } : Conn).readFrame 5 "HELLO d1").1.Recv =
      ({ freshConn with closed := true } : Conn).Recv
  ∧ (∀ s : String,
      Effect.enqueueRecv s ∉
        (({ freshConn with closed := true } : Conn).readFrame 5 "HELLO d1").2)) :=
  ⟨rfl, C7_closed_drops_enqueue { freshConn with closed := true } 5 "HELLO d1" rfl⟩

/-- C8 counterexample: the decoder does not treat a run of whitespace like
a single space. `HELLO<tab>d1` closes the connection while `HELLO d1` is
accepted, and `HELLO  d1` (two spaces) is accepted but stores the empty
string, not `d1`, as the id — so tab- or multi-space-separated input is
not recognized the same as single-space-separated input. -/
theorem C8_counterexample :
    (freshConn.processMessage "HELLO\td1").1.closed = true
  ∧ (freshConn.processMessage "HELLO d1").1.closed = false
  ∧ (freshConn.processMessage "HELLO d1").1.Device.Id = "d1"
  ∧ (freshConn.processMessage "HELLO  d1").1.closed = false
  ∧ (freshConn.processMessage "HELLO  d1").1.Device.Id = "" := by
  decide

/-- C8 (amended): the decoder tokenizes by splitting on each single space
character (`goSplit ' '`), trimming only the command token: a fresh
connection advances to `StatePendingOwner` exactly when the trimmed head
of the single-space split is `HELLO` and the split has a second field; a
tab-separated command is not recognized (the connection closes) and a
double space yields an empty argument. -/
theorem C8_single_space_split :
    (∀ (c : Conn) (m : String), c.Device.State = State.StatePendingHello →
      ((c.processMessage m).1.Device.State = State.StatePendingOwner ↔
        (cmdOf m = RespHello ∧ 2 ≤ (goSplit ' ' m.toList).length)))
  ∧ (freshConn.processMessage "HELLO\td1").1.closed = true
  ∧ (freshConn.processMessage "HELLO  d1").1.Device.Id = "" := by
  refine ⟨?_, by decide, by decide⟩
  intro c m hst
  constructor
  · intro hres
    rcases pm_cases c m with hh | hh | ⟨_, hcmd, hlen, _⟩ | ⟨hs, _, _, hh⟩ | hh
    · rw [hh, Close_Device] at hres
      rw [hst] at hres
      exact absurd hres (by decide)
    · rw [hh] at hres
      rw [hst] at hres
      exact absurd hres (by decide)
    · exact ⟨hcmd, hlen⟩
    · rw [hst] at hs
      exact absurd hs (by decide)
    · rw [hh] at hres
      rw [hst] at hres
      exact absurd hres (by decide)
  · rintro ⟨hcmd, hlen⟩
    rw [pm_hello_success c m hst hcmd hlen]

theorem C8_single_space_split_witness :
    freshConn.Device.State = State.StatePendingHello
  ∧ ((freshConn.processMessage "HELLO d1").1.Device.State = State.StatePendingOwner ↔
      (cmdOf "HELLO d1" = RespHello ∧
        2 ≤ (goSplit ' ' "HELLO d1".toList).length)) :=
  ⟨rfl, C8_single_space_split.1 freshConn "HELLO d1" rfl⟩

/-- C9: the keepalive probe interval is at most 70 percent of the
read-deadline window: `pingPeriod = (pongWait * 7) / 10 = 42` seconds with
`pongWait = 60` seconds, so `10 * pingPeriod ≤ 7 * pongWait` and in
particular `pingPeriod < pongWait`. -/
theorem C9_ping_period_bound :
    pingPeriod = 42 * second ∧ pongWait = 60 * second ∧
    10 * pingPeriod ≤ 7 * pongWait ∧ pingPeriod < pongWait := by
  refine ⟨by decide, by decide, by decide, by decide⟩

/-- C10: a fresh connection receiving `HELLO ` (trailing single space, no
id text) is not closed: the split yields an empty second field, which
passes the argument-count check, so the id is set to the empty string and
the state advances to `StatePendingOwner`. -/
theorem C10_hello_trailing_space :
    (freshConn.processMessage "HELLO ").1.closed = false
  ∧ (freshConn.processMessage "HELLO ").1.Device.State = State.StatePendingOwner
  ∧ (freshConn.processMessage "HELLO ").1.Device.Id = ""
  ∧ (freshConn.processMessage "HELLO ").2 = [] := by
  decide

end ws
